import Mathlib

/-!
# Verification of `gbm_project` — `src/pytorch/dataset_class.py`

A shallow embedding of `DatasetGenerator` (the only source file of the
repository) and proofs about it.  Line numbers in the comments refer to
`src/pytorch/dataset_class.py`.

Modelling conventions:
* numpy arrays are nested lists of rationals (`Arr1` … `Arr4`), row-major;
* Python exceptions are the explicit error type `PyErr`, fallible code
  runs in `Except PyErr`;
* the two `np.random.default_rng(seed)` generators (lines 25-26) are
  modelled as a pair (seed, number of draws made); the concrete pseudo
  random stream of numpy is an explicit function parameter
  `Nat → Nat → Int` (seed, draw index ↦ value), which is all the claims
  need of it;
* the external library calls (`skimage.util.random_noise`,
  `skimage.transform.rotate`, `elasticdeform.deform_random_grid`) are not
  repository code; they enter the embedding as abstract function
  parameters collected in the `Transforms` structure;
* the optional `transform` / `target_transform` hooks keep their default
  value `None` and are therefore omitted from the state.
-/

/-! ## Python string primitives

`String.splitOn` of core Lean is not kernel-reducible, so the embedding
carries its own structural implementations of the string operations the
source uses: `str.split('_')`, `'_'.join(...)`, the substring test
`needle in haystack` and `os.path.join`.  All are total and computable.
-/

/-- `headMatches sub l` is true when `sub` is an initial run of `l`. -/
def headMatches : List Char → List Char → Bool
  | [], _ => true
  | _ :: _, [] => false
  | a :: as, b :: bs => a = b && headMatches as bs

/-- `occursIn sub l` is true when `sub` occurs contiguously inside `l`. -/
def occursIn (sub : List Char) : List Char → Bool
  | [] => headMatches sub []
  | c :: rest => headMatches sub (c :: rest) || occursIn sub rest

/-- Python's substring test `needle in haystack`. -/
def pyIn (needle hay : String) : Bool :=
  occursIn needle.toList hay.toList

/-- Worker for `pySplitU`: accumulates the current segment (reversed). -/
def pySplitUAux : List Char → List Char → List String
  | [], cur => [String.mk cur.reverse]
  | c :: rest, cur =>
      if c = '_' then String.mk cur.reverse :: pySplitUAux rest []
      else pySplitUAux rest (c :: cur)

/-- Python's `s.split('_')`: never returns an empty list. -/
def pySplitU (s : String) : List String :=
  pySplitUAux s.toList []

/-- Python's `'_'.join(xs)`. -/
def joinU : List String → String
  | [] => ""
  | [x] => x
  | x :: xs => x ++ "_" ++ joinU xs

/-- `pat_idx.split('_')[-1]` — the final underscore-delimited segment
(lines 119 and 160). -/
def lastSegment (s : String) : String :=
  (pySplitU s).getLastD ("")

/-- `os.path.join(d, f)` for a directory given without a trailing
separator (the only shapes exercised here). -/
def osPathJoin (d f : String) : String :=
  if d == "" then f else d ++ "/" ++ f

/-! ## Arrays -/

/-- Rank-1 numeric array. -/
abbrev Arr1 := List ℚ

/-- Rank-2 numeric array. -/
abbrev Arr2 := List Arr1

/-- Rank-3 numeric array (one spatial volume). -/
abbrev Arr3 := List Arr2

/-- Rank-4 numeric array (leading channel/sub-region axis). -/
abbrev Arr4 := List Arr3

/-- Spatial dimensions `self.dim` (default `(70, 86, 86)`). -/
abbrev Dims := Nat × Nat × Nat

/-- Number of elements of a `Dims`-shaped volume. -/
def dimProd (d : Dims) : Nat := d.1 * d.2.1 * d.2.2

/-- `np.flip` along the single axis of a rank-1 array. -/
def flip1 (r : Arr1) : Arr1 := r.reverse

/-- `np.flip(m, axis=(0,1))` on a rank-2 array. -/
def flip2 (m : Arr2) : Arr2 := (m.map flip1).reverse

/-- `np.flip(a, axis=(0,1,2))` on a rank-3 array (line 211). -/
def flip3 (a : Arr3) : Arr3 := (a.map flip2).reverse

/-- `np.flip(v, axis=(1,2,3))` on a rank-4 array: the leading channel
axis is untouched, the three trailing spatial axes are mirrored
(line 213). -/
def flip4 (v : Arr4) : Arr4 := v.map flip3

/-- Row-major flattening of a rank-2 array. -/
def flatten2 (m : Arr2) : List ℚ := m.flatten

/-- Row-major flattening of a rank-3 array. -/
def flatten3 (a : Arr3) : List ℚ := (a.map flatten2).flatten

/-- Row-major flattening of a rank-4 array. -/
def flatten4 (v : Arr4) : List ℚ := (v.map flatten3).flatten

/-- Rebuild a `(d1, d2, d3)`-shaped rank-3 array from row-major flat
data (the constructive half of `np.reshape`). -/
def unflatten3 (d1 d2 d3 : Nat) (l : List ℚ) : Arr3 :=
  (List.range d1).map fun i =>
    (List.range d2).map fun j =>
      (List.range d3).map fun k =>
        l.getD ((i * d2 + j) * d3 + k) 0

/-- Rebuild a `(d1, d2, d3, d4)`-shaped rank-4 array from row-major flat
data. -/
def unflatten4 (d1 d2 d3 d4 : Nat) (l : List ℚ) : Arr4 :=
  (List.range d1).map fun i =>
    (List.range d2).map fun j =>
      (List.range d3).map fun k =>
        (List.range d4).map fun t =>
          l.getD (((i * d2 + j) * d3 + k) * d4 + t) 0

/-! ## Python errors and the loader's result shape -/

/-- The Python exceptions the component can raise. -/
inductive PyErr where
  /-- `np.load` on a path with no file (propagated storage error). -/
  | fileNotFound
  /-- `np.reshape` with mismatched element counts (`ValueError`). -/
  | valueError
  /-- attribute lookup on an object lacking it (`AttributeError`). -/
  | attributeError
  /-- reference to a name never imported (`NameError`). -/
  | nameError
  /-- positional index out of range (`IndexError`). -/
  | indexError
  /-- label lookup by missing key (`KeyError`). -/
  | keyError
deriving DecidableEq, Repr

/-- An array of rank 3, 4 or 5 — the ranks flowing through
`__getitem__`.  The rank is part of the value, so "one fewer leading
axis" is a statement the embedding can make. -/
inductive NpArr where
  /-- rank-3 array (single volume). -/
  | three (a : Arr3)
  /-- rank-4 array (leading channel axis). -/
  | four (v : Arr4)
  /-- rank-5 array (result of `np.expand_dims` on a rank-4 array). -/
  | five (w : List Arr4)
deriving DecidableEq

/-- Row-major flattening of an `NpArr`. -/
def flattenP : NpArr → List ℚ
  | .three a => flatten3 a
  | .four v => flatten4 v
  | .five w => (w.map flatten4).flatten

/-- numpy fancy indexing `raw[[i, j, ...]]` on the leading axis.
An in-range guarantee is supplied by the theorems; out of range, Python
would raise `IndexError`, modelled by the default `[]`. -/
def ndIndexList (raw : Arr4) (idxs : List Nat) : Arr4 :=
  idxs.map fun i => raw.getD i []

/-- Channel selection of `get_pat_array` (lines 109-117): with more than
one channel keep all five slices (`n == 5`), slices `{0,1,2,4}`
(`n == 4`) or slices `{0,1,2}` (otherwise); with `n <= 1` take the
single whole-tumor slice `raw[3]`, dropping the leading axis. -/
def selectChannels (n : Nat) (raw : Arr4) : NpArr :=
  if 1 < n then
    if n = 5 then .four raw
    else if n = 4 then .four (ndIndexList raw [0, 1, 2, 4])
    else .four (raw.take 3)
  else .three (raw.getD 3 [])

/-- How many leading slices channel selection keeps when `1 < n`. -/
def selCount (n : Nat) : Nat :=
  if n = 5 then 5 else if n = 4 then 4 else 3

/-! ## Augmentation routing (lines 119-128 and 160-169)

The source computes `aug = pat_idx.split('_')[-1]`, enters the block
only when `aug in self.augment_types` (exact tuple membership), and
inside it checks `'flip' in aug`, `'rotate' in aug`, `'noise' in aug`,
`'deform' in aug` — four independent substring tests — applying each
matching transformation in that fixed order.
-/

/-- The four augmentation transformations. -/
inductive AugKind where
  /-- `apply_flip` -/
  | flip
  /-- `apply_rotation` -/
  | rotate
  /-- `apply_noise` -/
  | noise
  /-- `apply_deformation` -/
  | deform
deriving DecidableEq, Repr

/-- The literal each transformation's substring test looks for. -/
def AugKind.pyName : AugKind → String
  | .flip => "flip"
  | .rotate => "rotate"
  | .noise => "noise"
  | .deform => "deform"

/-- The sequence of transformations an identifier receives, in source
order (lines 119-128; lines 160-169 are identical).  Routing is the
exact membership test `aug in self.augment_types`; the four inner tests
are substring tests against the suffix segment. -/
def augOpsApplied (patIdx : String) (kinds : List String) : List AugKind :=
  let aug := lastSegment patIdx
  if kinds.contains aug then
    (if pyIn ("flip") aug then [AugKind.flip] else []) ++
    (if pyIn ("rotate") aug then [AugKind.rotate] else []) ++
    (if pyIn ("noise") aug then [AugKind.noise] else []) ++
    (if pyIn ("deform") aug then [AugKind.deform] else [])
  else []

/-- The routing rule as claim C6 words it: the identifier is routed when
the final segment matches a configured kind name *as a substring* (the
kind name occurring inside the segment).  Stated from the claim's words,
for comparison with `augOpsApplied` which is stated from the source. -/
def routedClaimC6 (patIdx : String) (kinds : List String) : Bool :=
  kinds.any fun k => pyIn k (lastSegment patIdx)

/-- The transformation sequence claim C6 predicts: routing by substring
match, then the same four independent substring-checked transformations
in the same fixed order. -/
def augOpsClaimC6 (patIdx : String) (kinds : List String) : List AugKind :=
  let aug := lastSegment patIdx
  if routedClaimC6 patIdx kinds then
    (if pyIn ("flip") aug then [AugKind.flip] else []) ++
    (if pyIn ("rotate") aug then [AugKind.rotate] else []) ++
    (if pyIn ("noise") aug then [AugKind.noise] else []) ++
    (if pyIn ("deform") aug then [AugKind.deform] else [])
  else []

/-! ## The two seeded generators (lines 25-26)

`self.rng_noise = np.random.default_rng(seed)` and
`self.rng_rotate = np.random.default_rng(seed)` are modelled as counters
over a pure pseudo-random stream: a generator's state is its seed and
the number of values drawn so far, and drawing the `c`-th value of seed
`s` yields `stream s c` for the stream function under consideration.
-/

/-- One `np.random.default_rng(seed)` generator: seed plus position. -/
structure RNGGen where
  /-- the construction seed. -/
  seed : Nat
  /-- how many values have been drawn. -/
  count : Nat
deriving DecidableEq, Repr

/-- Draw one value: return it and advance the generator. -/
def rngDraw (stream : Nat → Nat → Int) (g : RNGGen) : Int × RNGGen :=
  (stream g.seed g.count, ⟨g.seed, g.count + 1⟩)

/-- The instance's two generators. -/
structure RngPair where
  /-- `self.rng_noise` (line 25). -/
  rngNoise : RNGGen
  /-- `self.rng_rotate` (line 26). -/
  rngRotate : RNGGen
deriving DecidableEq, Repr

/-- Lines 25-26: both generators are freshly seeded with the same
constructor seed. -/
def mkRngPair (seed : Nat) : RngPair :=
  ⟨⟨seed, 0⟩, ⟨seed, 0⟩⟩

/-! ## External library transformations

`skimage.transform.rotate`, `skimage.util.random_noise` and
`elasticdeform.deform_random_grid` are collaborators outside the
repository; the embedding takes them as opaque-to-the-claims function
parameters.  A noise outcome is determined by the generator state passed
to `random_noise` (seed and draw position) plus the input array.
-/

/-- The bundle of external array transformations. -/
structure Transforms where
  /-- the numpy integer stream behind `rng_rotate.integers(-180, 180)`
  (line 180): seed and draw index determine the angle. -/
  rotStream : Nat → Nat → Int
  /-- `skimage.transform.rotate(arr, angle, preserve_range=True)` on a
  rank-3 array (whole volume at `n_channels == 1`, or one leading slice
  otherwise — the same library call either way). -/
  rot : Int → Arr3 → Arr3
  /-- `random_noise(arr, mode='gaussian', seed=rng)` on a rank-3 array;
  the first two arguments are the generator's seed and position. -/
  noise3 : Nat → Nat → Arr3 → Arr3
  /-- `random_noise` on a rank-4 array. -/
  noise4 : Nat → Nat → Arr4 → Arr4
  /-- `elasticdeform.deform_random_grid(arr, sigma=5, order=0,
  axis=(0,1,2))` on a rank-3 array (line 203). -/
  deform3 : Arr3 → Arr3
  /-- `elasticdeform.deform_random_grid(arr, sigma=5, order=0,
  axis=(1,2,3))` on a rank-4 array (line 205). -/
  deform4 : Arr4 → Arr4

/-- `apply_rotation` on the rank-4 layout (lines 183-197): rotate each of
the first `selCount n` leading slices in place, by one shared angle. -/
def rotApply4 (T : Transforms) (n : Nat) (ang : Int) (v : Arr4) : Arr4 :=
  v.mapIdx fun i a => if i < selCount n then T.rot ang a else a

/-- One augmentation step on a rank-3 array (`n_channels == 1` branches
of `apply_flip` / `apply_rotation` / `apply_noise` /
`apply_deformation`), threading the generator pair. -/
def execOp3 (T : Transforms) (op : AugKind) (a : Arr3) (g : RngPair) :
    Arr3 × RngPair :=
  match op with
  | .flip => (flip3 a, g)
  | .rotate =>
      let (ang, r2) := rngDraw T.rotStream g.rngRotate
      (T.rot ang a, ⟨g.rngNoise, r2⟩)
  | .noise =>
      (T.noise3 g.rngNoise.seed g.rngNoise.count a,
        ⟨⟨g.rngNoise.seed, g.rngNoise.count + 1⟩, g.rngRotate⟩)
  | .deform => (T.deform3 a, g)

/-- One augmentation step on a rank-4 array (the `n_channels > 1`
branches), threading the generator pair. -/
def execOp4 (T : Transforms) (n : Nat) (op : AugKind) (v : Arr4)
    (g : RngPair) : Arr4 × RngPair :=
  match op with
  | .flip => (flip4 v, g)
  | .rotate =>
      let (ang, r2) := rngDraw T.rotStream g.rngRotate
      (rotApply4 T n ang v, ⟨g.rngNoise, r2⟩)
  | .noise =>
      (T.noise4 g.rngNoise.seed g.rngNoise.count v,
        ⟨⟨g.rngNoise.seed, g.rngNoise.count + 1⟩, g.rngRotate⟩)
  | .deform => (T.deform4 v, g)

/-- Run a sequence of augmentation steps on a rank-3 array. -/
def execOps3 (T : Transforms) : List AugKind → Arr3 → RngPair →
    Arr3 × RngPair
  | [], a, g => (a, g)
  | op :: ops, a, g =>
      execOps3 T ops (execOp3 T op a g).1 (execOp3 T op a g).2

/-- Run a sequence of augmentation steps on a rank-4 array. -/
def execOps4 (T : Transforms) (n : Nat) : List AugKind → Arr4 → RngPair →
    Arr4 × RngPair
  | [], v, g => (v, g)
  | op :: ops, v, g =>
      execOps4 T n ops (execOp4 T n op v g).1 (execOp4 T n op v g).2

/-! ## The label table and its expansion (lines 54-62)

The label table is the ordered pandas Series `self.labels`:
identifier → label, order defining positional access.  With
`to_augment` the constructor builds a dict `augment_idx` keyed by
augmentation kind (one relabeled copy of the base table per kind — each
copy taken from the *base* table, since `self.labels` is only
reassigned after the loop), then concatenates the base table with the
dict's values in insertion order.
-/

/-- The ordered label table: identifier, label. -/
abbrev LabelTable := List (String × Int)

/-- One `augment_idx[aug]` entry (lines 57-58): a deep copy of the base
table with `'_' + aug` appended to every identifier. -/
def renameBlock (base : LabelTable) (aug : String) : LabelTable :=
  base.map fun p => (p.1 ++ "_" ++ aug, p.2)

/-- Python dict assignment `d[k] = v`: overwrite in place if the key
exists (keeping its original position), else append. -/
def pyDictInsert (d : List (String × LabelTable)) (k : String)
    (v : LabelTable) : List (String × LabelTable) :=
  if d.any (fun p => p.1 == k) then
    d.map fun p => if p.1 == k then (p.1, v) else p
  else d ++ [(k, v)]

/-- The `for aug in self.augment_types` loop (lines 56-60), restricted
to its effect on `augment_idx`. -/
def expandLoop (base : LabelTable) : List String →
    List (String × LabelTable) → List (String × LabelTable)
  | [], d => d
  | k :: ks, d => expandLoop base ks (pyDictInsert d k (renameBlock base k))

/-- Line 62: `self.labels = pd.concat([self.labels, *augment_idx.values()])`. -/
def expandLabels (base : LabelTable) (kinds : List String) : LabelTable :=
  base ++ ((expandLoop base kinds []).map fun p => p.2).flatten

/-- The `self.data_indices` accumulation of line 60: per loop iteration
the freshly renamed identifiers are appended (duplicates in
`augment_types` append twice — no dict is involved here). -/
def expandDataIndices (base : List String) (baseLabels : LabelTable)
    (kinds : List String) : List String :=
  base ++ (kinds.map fun k => (renameBlock baseLabels k).map fun p => p.1).flatten

/-! ## The dataset state and its constructor -/

/-- The fields of a constructed `DatasetGenerator` that the claims
touch.  `transform` and `target_transform` keep their default `None` and
are omitted; `self.radiomics` stays `None` on every constructible state
(see `mkDatasetGenerator`). -/
structure GenState where
  /-- `self.labels` — the (possibly expanded) label table. -/
  labels : LabelTable
  /-- `self.data_indices` — the (possibly expanded) identifier list. -/
  dataIndices : List String
  /-- `self.data_dir`. -/
  dataDir : String
  /-- `self.csv_dir`. -/
  csvDir : String
  /-- `self.modality`. -/
  modality : List String
  /-- `self.dim`. -/
  dim : Dims
  /-- `self.n_channels` (after the line 20-23 override). -/
  nChannels : Nat
  /-- `self.to_augment`. -/
  toAugment : Bool
  /-- `self.augment_types`. -/
  augmentTypes : List String
  /-- `self.to_encode`. -/
  toEncode : Bool
  /-- `self.to_sectionate`. -/
  toSectionate : Bool
  /-- `self.rng_noise` and `self.rng_rotate`. -/
  rng : RngPair
deriving DecidableEq

/-- Lines 39-42: the representative modality used for feature retrieval
— the placeholder `'mod'` is replaced by `'FLAIR'`. -/
def featureModality (modality : List String) : String :=
  if modality.getD 0 ("") == "mod" then "FLAIR" else modality.getD 0 ("")

/-- `__init__` (lines 16-62).  `retrieveData` stands for the external
collaborator `gbm_project.data_prep.retrieve_data` (repository code not
present under `src/`), whose result the constructor would restrict and
standardize.  It never gets that far: line 45 evaluates
`StandardScaler()`, and `StandardScaler` is a name this module never
imports (imports are lines 2-10), so a `to_encode` construction raises
`NameError` after the `retrieve_data` call of line 43.  Without
`to_encode` the constructor performs the label-table expansion of
lines 54-62 when `to_augment` is set. -/
def mkDatasetGenerator (retrieveData : String → String → List (String × List ℚ))
    (dataIndices : List String) (labels : LabelTable)
    (dataDir csvDir : String) (modality : List String) (dim : Dims)
    (nChannels : Nat) (toAugment toEncode toSectionate : Bool)
    (augmentTypes : List String) (seed : Nat) : Except PyErr GenState :=
  let nCh := if 1 < modality.length then modality.length else nChannels
  if toEncode then
    let _tempRadiomics := retrieveData csvDir (featureModality modality)
    Except.error PyErr.nameError
  else
    Except.ok
      { labels := if toAugment then expandLabels labels augmentTypes else labels
        dataIndices :=
          if toAugment then expandDataIndices dataIndices labels augmentTypes
          else dataIndices
        dataDir := dataDir
        csvDir := csvDir
        modality := modality
        dim := dim
        nChannels := nCh
        toAugment := toAugment
        augmentTypes := augmentTypes
        toEncode := toEncode
        toSectionate := toSectionate
        rng := mkRngPair seed }

/-! ## Array loading -/

/-- `np.reshape(arr, dim)` to the three spatial dimensions: succeeds
exactly when the element counts agree, else `ValueError`. -/
def npReshape3 (d : Dims) (flat : List ℚ) : Except PyErr Arr3 :=
  if flat.length = dimProd d then
    Except.ok (unflatten3 d.1 d.2.1 d.2.2 flat)
  else Except.error PyErr.valueError

/-- `np.reshape(arr, (*dim, n))` to the spatial dimensions with a
trailing channel axis: succeeds exactly when the element counts agree,
else `ValueError`. -/
def npReshape4 (d : Dims) (n : Nat) (flat : List ℚ) : Except PyErr Arr4 :=
  if flat.length = dimProd d * n then
    Except.ok (unflatten4 d.1 d.2.1 d.2.2 n flat)
  else Except.error PyErr.valueError

/-- Filename resolution inside `get_pat_array` / `get_pat_mod_array`
(lines 100-106 and 149-155): with `to_augment` set and *exactly three*
underscore-separated segments, only the first two segments are kept;
otherwise the identifier is used unchanged. -/
def resolveId (toAugment : Bool) (pat : String) : String :=
  if toAugment && ((pySplitU pat).length == 3) then
    joinU ((pySplitU pat).take 2)
  else pat

/-- The on-disk file consulted for an identifier and modality:
`os.path.join(self.data_dir, resolved + '_' + mod + '.npy')`. -/
def volumeFileName (dataDir : String) (toAugment : Bool) (pat mod : String) :
    String :=
  osPathJoin dataDir (resolveId toAugment pat ++ "_" ++ mod ++ ".npy")

/-- `get_pat_array` (lines 94-136): load the single-modality volume,
select channels, apply any routed augmentations, and reshape when
`to_sectionate` is set (to `self.dim` at one channel, to
`(*self.dim, n_channels)` otherwise).  `fs` is the storage: contents of
`np.load` by file name. -/
def get_pat_array (T : Transforms) (fs : String → Except PyErr Arr4)
    (st : GenState) (pat : String) : Except PyErr (NpArr × RngPair) := do
  let raw ← fs (volumeFileName st.dataDir st.toAugment pat
    (st.modality.getD 0 ("")))
  let ops := augOpsApplied pat st.augmentTypes
  let sel : NpArr × RngPair :=
    match selectChannels st.nChannels raw with
    | NpArr.three a =>
        (NpArr.three (execOps3 T ops a st.rng).1, (execOps3 T ops a st.rng).2)
    | NpArr.four v =>
        (NpArr.four (execOps4 T st.nChannels ops v st.rng).1,
          (execOps4 T st.nChannels ops v st.rng).2)
    | NpArr.five w => (NpArr.five w, st.rng)
  if st.toSectionate then
    if st.nChannels == 1 then
      (npReshape3 st.dim (flattenP sel.1)).map fun r => (NpArr.three r, sel.2)
    else
      (npReshape4 st.dim st.nChannels (flattenP sel.1)).map fun r =>
        (NpArr.four r, sel.2)
  else
    Except.ok sel

/-- `get_pat_mod_array` (lines 139-171): one volume per configured
modality, always slice `in_arr[3]`, stacked along a new leading axis;
then any routed augmentations on the stack (rank-4 branches). -/
def get_pat_mod_array (T : Transforms) (fs : String → Except PyErr Arr4)
    (st : GenState) (pat : String) : Except PyErr (Arr4 × RngPair) := do
  let slices ← st.modality.mapM fun mod => do
    let raw ← fs (volumeFileName st.dataDir st.toAugment pat mod)
    pure (raw.getD 3 [])
  let ops := augOpsApplied pat st.augmentTypes
  pure (execOps4 T st.nChannels ops slices st.rng)

/-! ## The access entry point -/

/-- `np.expand_dims(arr, axis=0)` (line 89).  On the ranks reachable at
line 89 the input is rank 3 (it is only taken when `n_channels == 1`,
which forces the single-modality rank-3 path); the rank-4 and rank-5
cases are written out for totality. -/
def expandDims0 : NpArr → NpArr
  | .three a => .four [a]
  | .four v => .five [v]
  | .five w => .five w

/-- `__getitem__` (lines 68-91).  Positional identifier lookup, label
lookup by key (`.loc`, modelled as first match), the modality-count
dispatch to the two loaders, the `to_sectionate` reshape of line 82, and
the `expand_dims` of line 89.  Note the method never consults
`self.to_encode` and never calls `self.encode`.  The advanced generator
state is internal to the access (the claims that need the sequence of
accesses use `replayAccesses`). -/
def getItem (T : Transforms) (fs : String → Except PyErr Arr4)
    (st : GenState) (idx : Nat) : Except PyErr (NpArr × Int) := do
  match st.labels.get? idx with
  | none => Except.error PyErr.indexError
  | some (pat, _) =>
    match st.labels.find? (fun p => p.1 == pat) with
    | none => Except.error PyErr.keyError
    | some (_, label) => do
      let res ←
        if st.modality.length < 2 then
          get_pat_array T fs st pat
        else
          (get_pat_mod_array T fs st pat).map fun p => (NpArr.four p.1, p.2)
      let arr1 ←
        if st.toSectionate then
          (npReshape3 st.dim (flattenP res.1)).map NpArr.three
        else Except.ok res.1
      let arr2 := if st.nChannels == 1 then expandDims0 arr1 else arr1
      Except.ok (arr2, label)

/-! ## `encode` (lines 217-232) -/

/-- `DatasetGenerator.encode`.  Its first statement (line 218) is
`arr.append(np.zeros((self.n_channels, self.dim[1], self.dim[2])), axis=0)`
— but `numpy.ndarray` has no `append` attribute (`np.append` is a module
function, not a method), so every call raises `AttributeError` before
the feature-overlay lines 220-230 can run.  The embedding therefore maps
every input to that error; the overlay code is unreachable. -/
def encode (_st : GenState) (_arr : Arr4) (_idx : String) :
    Except PyErr Arr4 :=
  Except.error PyErr.attributeError

/-! ## `apply_flip` with allocation made explicit (lines 209-214)

For the aliasing half of claim C3 the embedding tracks numpy buffer
identity: an array value paired with the id of the buffer holding it.
`np.flip` returns a *view* (same buffer, mirrored indexing); `.copy()`
materialises into a freshly allocated buffer.  The allocator is a
counter `alloc`; every live buffer id is below it.
-/

/-- A rank-3 array together with the id of its backing buffer. -/
structure BufArr3 where
  /-- backing buffer id. -/
  buf : Nat
  /-- logical contents. -/
  val : Arr3
deriving DecidableEq

/-- A rank-4 array together with the id of its backing buffer. -/
structure BufArr4 where
  /-- backing buffer id. -/
  buf : Nat
  /-- logical contents. -/
  val : Arr4
deriving DecidableEq

/-- `apply_flip` at `n_channels == 1` (line 211):
`np.flip(arr, axis=(0,1,2))` is a view on `arr`'s buffer; `.copy()`
allocates buffer `alloc`.  Returns the result and the advanced
allocator. -/
def apply_flip_alloc3 (alloc : Nat) (x : BufArr3) : BufArr3 × Nat :=
  let view : BufArr3 := ⟨x.buf, flip3 x.val⟩
  (⟨alloc, view.val⟩, alloc + 1)

/-- `apply_flip` at `n_channels > 1` (line 213):
`np.flip(arr, axis=(1,2,3)).copy()`. -/
def apply_flip_alloc4 (alloc : Nat) (x : BufArr4) : BufArr4 × Nat :=
  let view : BufArr4 := ⟨x.buf, flip4 x.val⟩
  (⟨alloc, view.val⟩, alloc + 1)

/-! ## Replay of the augmentation randomness (claim C2)

The observable random outcomes of a sequence of accesses: one drawn
angle per `apply_rotation` call (line 180) and one generator consumption
per `apply_noise` call (line 176), identified by the generator position
it consumes.  `runAugOps` advances the pair exactly as `execOp3` /
`execOp4` do.
-/

/-- One observable random outcome. -/
inductive AugEvent where
  /-- `apply_rotation` drew this angle. -/
  | rotAngle (a : Int)
  /-- `apply_noise` consumed the noise generator at this seed and
  position (which determine its Gaussian field). -/
  | noiseDraw (seed count : Nat)
deriving DecidableEq, Repr

/-- The events of one access's augmentation sequence. -/
def runAugOps (rotStream : Nat → Nat → Int) :
    List AugKind → RngPair → List AugEvent × RngPair
  | [], g => ([], g)
  | .flip :: ops, g => runAugOps rotStream ops g
  | .rotate :: ops, g =>
      let (a, r2) := rngDraw rotStream g.rngRotate
      let (evs, g2) := runAugOps rotStream ops ⟨g.rngNoise, r2⟩
      (.rotAngle a :: evs, g2)
  | .noise :: ops, g =>
      let (evs, g2) := runAugOps rotStream ops
        ⟨⟨g.rngNoise.seed, g.rngNoise.count + 1⟩, g.rngRotate⟩
      (.noiseDraw g.rngNoise.seed g.rngNoise.count :: evs, g2)
  | .deform :: ops, g => runAugOps rotStream ops g

/-- Replay a sequence of item accesses (by identifier) against the
generator pair, collecting every rotation angle and noise outcome in
order. -/
def replayAccesses (rotStream : Nat → Nat → Int) (kinds : List String) :
    List String → RngPair → List AugEvent × RngPair
  | [], g => ([], g)
  | pat :: pats, g =>
      let (e1, g1) := runAugOps rotStream (augOpsApplied pat kinds) g
      let (e2, g2) := replayAccesses rotStream kinds pats g1
      (e1 ++ e2, g2)

/-! ## Concrete fixtures for counterexamples and witnesses -/

/-- A concrete instantiation of the external transformations: the
identity rotation/noise/deformation over the stream `seed + index`.
Used only to evaluate the embedding at concrete inputs. -/
def Ttriv : Transforms where
  rotStream := fun s c => (s : Int) + (c : Int)
  rot := fun _ a => a
  noise3 := fun _ _ a => a
  noise4 := fun _ _ v => v
  deform3 := fun a => a
  deform4 := fun v => v

/-- A one-file storage: `name` holds the volume `v`, nothing else
exists. -/
def fsSingle (name : String) (v : Arr4) : String → Except PyErr Arr4 :=
  fun n => if n == name then Except.ok v else Except.error PyErr.fileNotFound

/-- A tiny `1×1×1` volume slice holding the value `q`. -/
def slice1 (q : ℚ) : Arr3 := [[[q]]]

/-- The five-slice demo volume `[0, 1, 2, 3, 4]` of `1×1×1` slices. -/
def demoVol : Arr4 := [slice1 0, slice1 1, slice1 2, slice1 3, slice1 4]

/-- The state of claim C7's scenario at base identifier `"P001"`:
augmentation enabled with kinds `('flip',)`, channel count 1, single
modality `FLAIR`, no sectionation, no encoding, seed 42 — the label
table as `__init__` expands it. -/
def st7c : GenState where
  labels := expandLabels [("P001", 7)] ["flip"]
  dataIndices := expandDataIndices ["P001"] [("P001", 7)] ["flip"]
  dataDir := ""
  csvDir := ""
  modality := ["FLAIR"]
  dim := (1, 1, 1)
  nChannels := 1
  toAugment := true
  augmentTypes := ["flip"]
  toEncode := false
  toSectionate := false
  rng := mkRngPair 42

/-- The same scenario at the two-segment base identifier `"P001_11"`,
with the base label `l`. -/
def st7 (l : Int) : GenState where
  labels := expandLabels [("P001_11", l)] ["flip"]
  dataIndices := expandDataIndices ["P001_11"] [("P001_11", l)] ["flip"]
  dataDir := ""
  csvDir := ""
  modality := ["FLAIR"]
  dim := (1, 1, 1)
  nChannels := 1
  toAugment := true
  augmentTypes := ["flip"]
  toEncode := false
  toSectionate := false
  rng := mkRngPair 42

/-- A state for claim C10's witness: single modality, sectionation on,
three channels, `1×1×1` spatial dimensions. -/
def st10 : GenState where
  labels := [("P_1", 0)]
  dataIndices := ["P_1"]
  dataDir := ""
  csvDir := ""
  modality := ["T1"]
  dim := (1, 1, 1)
  nChannels := 3
  toAugment := false
  augmentTypes := []
  toEncode := false
  toSectionate := true
  rng := mkRngPair 0

/-- A state for claim C5's witness: two modalities. -/
def st5 : GenState where
  labels := [("P_1", 0)]
  dataIndices := ["P_1"]
  dataDir := ""
  csvDir := ""
  modality := ["T1", "T2"]
  dim := (1, 1, 1)
  nChannels := 2
  toAugment := false
  augmentTypes := []
  toEncode := false
  toSectionate := false
  rng := mkRngPair 0

/-- A two-modality storage for claim C5's witness: `P_1_T1.npy` and
`P_1_T2.npy`. -/
def fs5 : String → Except PyErr Arr4 :=
  fun n =>
    if n == "P_1_T1.npy" then Except.ok demoVol
    else if n == "P_1_T2.npy" then
      Except.ok [slice1 5, slice1 6, slice1 7, slice1 8, slice1 9]
    else Except.error PyErr.fileNotFound

/-! ## Shape preservation of the external transformations

The library calls return arrays of the same shape as their input
(`preserve_range` rotation, additive noise, grid deformation).  The
claims that reason about element counts assume only this, stated as
`Tpres` on the abstract `Transforms` bundle.
-/

/-- The external transformations preserve element counts. -/
def Tpres (T : Transforms) : Prop :=
  (∀ ang a, (flatten3 (T.rot ang a)).length = (flatten3 a).length) ∧
  (∀ s c a, (flatten3 (T.noise3 s c a)).length = (flatten3 a).length) ∧
  (∀ s c v, (flatten4 (T.noise4 s c v)).length = (flatten4 v).length) ∧
  (∀ a, (flatten3 (T.deform3 a)).length = (flatten3 a).length) ∧
  (∀ v, (flatten4 (T.deform4 v)).length = (flatten4 v).length)

/-! # Theorems -/

/-! ## Claim C3 — flip -/

theorem flip1_flip1 (r : Arr1) : flip1 (flip1 r) = r := by
  simp [flip1]

theorem flip2_flip2 (m : Arr2) : flip2 (flip2 m) = m := by
  simp [flip2, flip1, List.map_reverse, List.reverse_reverse, List.map_map,
    Function.comp_def]

theorem flip3_flip3 (a : Arr3) : flip3 (flip3 a) = a := by
  simp [flip3, List.map_reverse, List.reverse_reverse, List.map_map,
    Function.comp_def, flip2_flip2]

theorem flip4_flip4 (v : Arr4) : flip4 (flip4 v) = v := by
  simp [flip4, List.map_map, Function.comp_def, flip3_flip3]

/-- C3: `apply_flip` mirrors the last three axes — all three axes of a
rank-3 array at `n_channels == 1`, the three trailing axes (offset one
position past the leading channel axis) otherwise — and applying it
twice restores the original array; moreover the `.copy()` of
lines 211/213 puts the result in a freshly allocated buffer, so one
flip never aliases its source. -/
theorem flip_involution_and_copy :
    (∀ a : Arr3, flip3 (flip3 a) = a) ∧
    (∀ v : Arr4, flip4 (flip4 v) = v) ∧
    (∀ (alloc : Nat) (x : BufArr3), x.buf < alloc →
      (apply_flip_alloc3 alloc x).1.buf ≠ x.buf ∧
      (apply_flip_alloc3 alloc x).1.val = flip3 x.val) ∧
    (∀ (alloc : Nat) (y : BufArr4), y.buf < alloc →
      (apply_flip_alloc4 alloc y).1.buf ≠ y.buf ∧
      (apply_flip_alloc4 alloc y).1.val = flip4 y.val) := by
  refine ⟨flip3_flip3, flip4_flip4, ?_, ?_⟩
  · intro alloc x h
    exact ⟨by simpa [apply_flip_alloc3] using (Nat.ne_of_lt h).symm, rfl⟩
  · intro alloc y h
    exact ⟨by simpa [apply_flip_alloc4] using (Nat.ne_of_lt h).symm, rfl⟩

/-- Witness for C3 at a concrete buffer and allocator. -/
theorem flip_involution_and_copy_witness :
    (apply_flip_alloc3 1 ⟨0, slice1 3⟩).1.buf ≠ 0 ∧
    (apply_flip_alloc3 1 ⟨0, slice1 3⟩).1.val = flip3 (slice1 3) :=
  flip_involution_and_copy.2.2.1 1 ⟨0, slice1 3⟩ (by decide)

/-! ## Claim C1 — label-table expansion -/

theorem expandLoop_eq (base : LabelTable) :
    ∀ (kinds : List String) (d : List (String × LabelTable)),
      (∀ k ∈ kinds, ∀ p ∈ d, p.1 ≠ k) → kinds.Nodup →
      expandLoop base kinds d =
        d ++ kinds.map fun k => (k, renameBlock base k) := by
  intro kinds
  induction kinds with
  | nil => intro d _ _; simp [expandLoop]
  | cons k ks ih =>
    intro d hdisj hnd
    have hk : d.any (fun p => p.1 == k) = false := by
      simp only [List.any_eq_false, beq_iff_eq]
      exact fun p hp => hdisj k (List.mem_cons_self k ks) p hp
    rw [expandLoop, pyDictInsert, hk]
    simp only [Bool.false_eq_true, if_false]
    rw [ih (d ++ [(k, renameBlock base k)]) ?_ hnd.of_cons]
    · simp
    · intro k2 hk2 p hp
      rcases List.mem_append.mp hp with hpd | hps
      · exact hdisj k2 (List.mem_cons_of_mem k hk2) p hpd
      · have hpe : p = (k, renameBlock base k) := by simpa using hps
        subst hpe
        intro he
        have hke : k = k2 := by simpa using he
        exact (List.nodup_cons.mp hnd).1 (hke.symm ▸ hk2)

theorem sum_map_constN {α : Type} (l : List α) (c : Nat) :
    (l.map fun _ => c).sum = l.length * c := by
  induction l with
  | nil => simp
  | cons x xs ih => simp [ih, Nat.succ_mul, Nat.add_comm]

/-- C1: with augmentation enabled and a non-empty collection of distinct
kinds, the expanded label table is the original block followed by one
renamed copy per kind in configured order; its length is
`(1 + number of kinds) × original length`, and for every original entry
`(I, l)` and kind `k` it contains both `(I, l)` and `(I_k, l)`. -/
theorem label_table_expansion (base : LabelTable) (kinds : List String)
    (_hne : kinds ≠ []) (hnd : kinds.Nodup) :
    expandLabels base kinds = base ++ (kinds.map (renameBlock base)).flatten ∧
    (expandLabels base kinds).length = (1 + kinds.length) * base.length ∧
    ∀ p ∈ base, p ∈ expandLabels base kinds ∧
      ∀ k ∈ kinds, (p.1 ++ "_" ++ k, p.2) ∈ expandLabels base kinds := by
  have horder : expandLabels base kinds =
      base ++ (kinds.map (renameBlock base)).flatten := by
    rw [expandLabels, expandLoop_eq base kinds [] (by simp) hnd]
    simp [List.map_map, Function.comp_def]
  refine ⟨horder, ?_, ?_⟩
  · rw [horder]
    simp only [List.length_append, List.length_flatten, List.map_map,
      Function.comp_def, renameBlock, List.length_map]
    rw [sum_map_constN]
    ring
  · intro p hp
    constructor
    · rw [horder]; exact List.mem_append_left _ hp
    · intro k hk
      rw [horder]
      refine List.mem_append_right _ (List.mem_flatten.mpr ?_)
      exact ⟨renameBlock base k, List.mem_map_of_mem _ hk,
        List.mem_map_of_mem _ hp⟩

/-- Witness for C1 at a concrete table and kind list. -/
theorem label_table_expansion_witness :
    (expandLabels [("P001_11", 7)] ["flip", "rotate"]).length =
      (1 + 2) * 1 :=
  (label_table_expansion [("P001_11", 7)] ["flip", "rotate"]
    (by decide) (by decide)).2.1

/-! ## Claim C2 — determinism of the augmentation randomness -/

/-- C2: two instances freshly constructed with the same configuration
and seed carry identical generator pairs (lines 25-26 seed both from the
constructor seed), so replaying the same access sequence on each yields
identical rotation angles and identical noise outcomes, whatever the
underlying pseudo-random stream is. -/
theorem augmentation_determinism (rotStream : Nat → Nat → Int)
    (kinds : List String) (seed : Nat) (accs : List String)
    (g1 g2 : RngPair) (h1 : g1 = mkRngPair seed) (h2 : g2 = mkRngPair seed) :
    replayAccesses rotStream kinds accs g1 =
      replayAccesses rotStream kinds accs g2 := by
  subst h1; subst h2; rfl

/-- Witness for C2 at a concrete stream, kind list, seed and access
sequence. -/
theorem augmentation_determinism_witness :
    replayAccesses (fun s c => (s : Int) + (c : Int)) ["rotate", "noise"]
      ["A_1_rotate", "A_1_noise", "A_1"] (mkRngPair 42) =
    replayAccesses (fun s c => (s : Int) + (c : Int)) ["rotate", "noise"]
      ["A_1_rotate", "A_1_noise", "A_1"] (mkRngPair 42) :=
  augmentation_determinism _ _ 42 _ _ _ rfl rfl

/-! ## Claim C4 — single-modality channel selection -/

/-- C4: on a five-slice load, channel count 5 keeps the array unchanged,
4 selects leading slices `{0,1,2,4}`, any other count above 1 selects
`{0,1,2}`, and count exactly 1 selects only slice 3 (the whole-tumor
slice) and drops the leading axis — a rank-3 result where every other
variant is rank 4. -/
theorem channel_selection (a b c d e : Arr3) :
    selectChannels 5 [a, b, c, d, e] = NpArr.four [a, b, c, d, e] ∧
    selectChannels 4 [a, b, c, d, e] = NpArr.four [a, b, c, e] ∧
    (∀ n, 1 < n → n ≠ 4 → n ≠ 5 →
      selectChannels n [a, b, c, d, e] = NpArr.four [a, b, c]) ∧
    selectChannels 1 [a, b, c, d, e] = NpArr.three d := by
  refine ⟨rfl, rfl, ?_, rfl⟩
  intro n h1 h4 h5
  simp [selectChannels, h1, h4, h5]

/-- Witness for C4 at channel count 3 and the concrete demo volume. -/
theorem channel_selection_witness :
    selectChannels 3 demoVol = NpArr.four [slice1 0, slice1 1, slice1 2] :=
  (channel_selection (slice1 0) (slice1 1) (slice1 2) (slice1 3)
    (slice1 4)).2.2.1 3 (by decide) (by decide) (by decide)

/-! ## Claim C6 — augmentation routing -/

/-- C6 as stated is false: routing is the *exact* membership test
`aug in self.augment_types` (line 120), not a substring match.  With
kinds `('flip',)` and suffix segment `"flipx"` the claim's substring
rule routes the identifier (and would flip it), while the code applies
nothing. -/
theorem augment_routing_counterexample :
    augOpsApplied ("A_B_flipx") (["flip"]) ≠
      augOpsClaimC6 ("A_B_flipx") (["flip"]) ∧
    augOpsApplied ("A_B_flipx") (["flip"]) = [] ∧
    augOpsClaimC6 ("A_B_flipx") (["flip"]) = [AugKind.flip] := by
  decide

/-- C6 amended: the identifier is routed exactly when its final
underscore-delimited segment is *equal* to a configured kind name; once
routed, the four transformations are checked independently as substring
tests against that segment — several may apply — and are performed in
the fixed order flip, rotate, noise, deform. -/
theorem augment_routing_amended (pat : String) (kinds : List String) :
    augOpsApplied pat kinds =
      if lastSegment pat ∈ kinds then
        [AugKind.flip, AugKind.rotate, AugKind.noise, AugKind.deform].filter
          fun t => pyIn t.pyName (lastSegment pat)
      else [] := by
  by_cases h : lastSegment pat ∈ kinds
  · rw [if_pos h]
    have hc : kinds.contains (lastSegment pat) = true := by
      simpa [List.contains, List.elem_iff] using h
    simp only [augOpsApplied, hc, if_true]
    cases hf : pyIn ("flip") (lastSegment pat) <;>
      cases hr : pyIn ("rotate") (lastSegment pat) <;>
        cases hn : pyIn ("noise") (lastSegment pat) <;>
          cases hd : pyIn ("deform") (lastSegment pat) <;>
            simp [List.filter, hf, hr, hn, hd, AugKind.pyName]
  · rw [if_neg h]
    have hc : kinds.contains (lastSegment pat) = false := by
      simp [List.contains, List.elem_eq_mem, h]
    simp [augOpsApplied, hc, h]

/-! ## Claim C7 — the `"P001"` / `"P001_flip"` scenario -/

/-- C7 as stated is false on the code: with the one-segment base
identifier `"P001"`, the virtual identifier `"P001_flip"` has two
underscore-separated segments, not the three that resolution requires
(line 101), so the suffix is not stripped and the access tries to load
`P001_flip_FLAIR.npy` — a file the storage does not have (it holds only
`P001_FLAIR.npy`).  The expanded table is as claimed and the base item
loads fine, but access at the position of `"P001_flip"` raises
file-not-found instead of returning the flipped base array. -/
theorem scenario_counterexample :
    expandLabels [("P001", 7)] ["flip"] = [("P001", 7), ("P001_flip", 7)] ∧
    getItem Ttriv (fsSingle ("P001_FLAIR.npy") demoVol) st7c 0 =
      Except.ok (NpArr.four [slice1 3], 7) ∧
    getItem Ttriv (fsSingle ("P001_FLAIR.npy") demoVol) st7c 1 =
      Except.error PyErr.fileNotFound :=
  ⟨rfl, rfl, rfl⟩

/-- C7 amended: with a two-segment base identifier (the form the
resolution of line 101 expects, e.g. `"P001_11"`), the scenario holds:
the expanded table contains `"P001_11"` and `"P001_11_flip"`, and item
access at the position of the latter returns exactly the flip of the
array returned at the position of the former (both carried under the
unit channel axis `expand_dims` adds at channel count 1). -/
theorem scenario_amended (l : Int) (s0 s1 s2 s3 : Arr3) (rest : List Arr3)
    (T : Transforms) :
    expandLabels [("P001_11", l)] ["flip"] =
      [("P001_11", l), ("P001_11_flip", l)] ∧
    getItem T (fsSingle ("P001_11_FLAIR.npy") (s0 :: s1 :: s2 :: s3 :: rest))
      (st7 l) 0 = Except.ok (NpArr.four [s3], l) ∧
    getItem T (fsSingle ("P001_11_FLAIR.npy") (s0 :: s1 :: s2 :: s3 :: rest))
      (st7 l) 1 = Except.ok (NpArr.four [flip3 s3], l) :=
  ⟨rfl, rfl, rfl⟩

/-! ## Claim C8 — the Feature Encoder is never applied -/

/-- C8 is false of the code: `__getitem__` (lines 68-91) never calls
`self.encode`, so its result is independent of the `to_encode` flag; and
`encode` itself (line 218) calls the nonexistent method `arr.append`,
raising `AttributeError` on every input.  No item access ever overlays
radiomic features. -/
theorem encode_never_applied :
    (∀ (st : GenState) (arr : Arr4) (idx : String),
      encode st arr idx = Except.error PyErr.attributeError) ∧
    (∀ (T : Transforms) (fs : String → Except PyErr Arr4) (st : GenState)
      (b1 b2 : Bool) (i : Nat),
      getItem T fs { st with toEncode := b1 } i =
        getItem T fs { st with toEncode := b2 } i) := by
  refine ⟨fun _ _ _ => rfl, ?_⟩
  intro T fs st b1 b2 i
  cases st
  rfl

/-! ## Claim C9 — feature standardization at construction -/

/-- C9 is false of the code as written: every construction with
`to_encode` set reaches line 45, which evaluates `StandardScaler()` —
a name the module never imports — and raises `NameError` before any
restriction or standardization of the feature table can happen.  The
`'mod'` placeholder substitution of lines 39-42 does take effect first:
feature retrieval uses `FLAIR` for placeholder `'mod'` and the first
configured modality otherwise. -/
theorem construction_with_encode :
    (∀ (retrieve : String → String → List (String × List ℚ))
      (dataIndices : List String) (labels : LabelTable)
      (dataDir csvDir : String) (modality : List String) (dim : Dims)
      (nCh : Nat) (tA tS : Bool) (kinds : List String) (seed : Nat),
      mkDatasetGenerator retrieve dataIndices labels dataDir csvDir modality
        dim nCh tA true tS kinds seed = Except.error PyErr.nameError) ∧
    featureModality ["mod"] = "FLAIR" ∧
    (∀ (m : String) (ms : List String), m ≠ "mod" →
      featureModality (m :: ms) = m) := by
  refine ⟨fun _ _ _ _ _ _ _ _ _ _ _ _ => rfl, rfl, ?_⟩
  intro m ms h
  simp [featureModality, h]

/-- Witness for C9 at a concrete non-placeholder modality. -/
theorem construction_with_encode_witness :
    featureModality ["T1", "T2"] = "T1" :=
  construction_with_encode.2.2 ("T1") (["T2"]) (by decide)

/-! ## Claim C5 — multi-modality stacking -/

theorem mapM_ok {α β : Type} (l : List α) (f : α → Except PyErr β)
    (g : α → β) (h : ∀ x ∈ l, f x = Except.ok (g x)) :
    l.mapM f = Except.ok (l.map g) := by
  induction l with
  | nil => rfl
  | cons x xs ih =>
    rw [List.mapM_cons, h x (List.mem_cons_self x xs),
      ih fun y hy => h y (List.mem_cons_of_mem x hy)]
    rfl

theorem augOps_nil_of_not_contains (pat : String) (kinds : List String)
    (h : kinds.contains (lastSegment pat) = false) :
    augOpsApplied pat kinds = [] := by
  have h2 : lastSegment pat ∉ kinds := by
    simpa [List.contains, List.elem_eq_mem] using h
  simp [augOpsApplied, h, h2]

theorem getD_map_lt {α β : Type} (f : α → β) (dA : α) (dB : β) :
    ∀ (l : List α) (i : Nat), i < l.length →
      (l.map f).getD i dB = f (l.getD i dA) := by
  intro l
  induction l with
  | nil => intro i h; simp at h
  | cons x xs ih =>
    intro i h
    cases i with
    | zero => rfl
    | succ j =>
      simp only [List.map_cons, List.getD_cons_succ]
      exact ih j (by simpa using h)

/-- C5: with more than one modality the loader stacks one slice per
modality: for an identifier that is not routed to the Augmentor and
whose files all load, the output is exactly the list of `raw[3]` slices
in modality order — its leading-axis length equals the modality count
whatever channel count was configured (`st.nChannels` is arbitrary
here), and slot `i` holds leading-axis index 3 of the volume loaded for
modality `i`. -/
theorem multimodal_stacking (T : Transforms)
    (fs : String → Except PyErr Arr4) (st : GenState) (pat : String)
    (v : String → Arr4)
    (hload : ∀ m ∈ st.modality,
      fs (volumeFileName st.dataDir st.toAugment pat m) = Except.ok (v m))
    (hnoaug : st.augmentTypes.contains (lastSegment pat) = false) :
    get_pat_mod_array T fs st pat =
      Except.ok (st.modality.map (fun m => (v m).getD 3 []), st.rng) ∧
    (st.modality.map fun m => (v m).getD 3 []).length = st.modality.length ∧
    ∀ i, i < st.modality.length →
      (st.modality.map fun m => (v m).getD 3 []).getD i [] =
        (v (st.modality.getD i (""))).getD 3 [] := by
  have hmm : (st.modality.mapM fun mod => do
      let raw ← fs (volumeFileName st.dataDir st.toAugment pat mod)
      pure (raw.getD 3 [])) =
      Except.ok (st.modality.map fun m => (v m).getD 3 []) := by
    apply mapM_ok
    intro m hm
    rw [hload m hm]
    rfl
  refine ⟨?_, by simp, ?_⟩
  · rw [get_pat_mod_array, hmm]
    simp [augOps_nil_of_not_contains pat st.augmentTypes hnoaug, execOps4]
  · intro i hi
    exact getD_map_lt (fun m => (v m).getD 3 []) ("") [] st.modality i hi

/-- Witness for C5 at two modalities and concrete volumes. -/
theorem multimodal_stacking_witness :
    get_pat_mod_array Ttriv fs5 st5 ("P_1") =
      Except.ok ([slice1 3, slice1 8], mkRngPair 0) ∧
    ([slice1 3, slice1 8] : Arr4).length = 2 := by
  have h := multimodal_stacking Ttriv fs5 st5 ("P_1")
    (fun m => if m == "T1" then demoVol
      else [slice1 5, slice1 6, slice1 7, slice1 8, slice1 9])
    (by intro m hm; fin_cases hm <;> rfl) (by rfl)
  exact ⟨h.1, by rfl⟩

/-! ## Claim C10 — sectionation with several channels -/

theorem flatten3_unflatten3_length (d1 d2 d3 : Nat) (l : List ℚ) :
    (flatten3 (unflatten3 d1 d2 d3 l)).length = d1 * d2 * d3 := by
  simp only [flatten3, flatten2, unflatten3, List.length_flatten,
    List.map_map, Function.comp_def, List.length_map, List.length_range]
  rw [sum_map_constN]
  simp [Nat.mul_assoc]

theorem flatten4_unflatten4_length (d1 d2 d3 d4 : Nat) (l : List ℚ) :
    (flatten4 (unflatten4 d1 d2 d3 d4 l)).length = d1 * d2 * d3 * d4 := by
  simp only [flatten4, flatten3, flatten2, unflatten4, List.length_flatten,
    List.map_map, Function.comp_def, List.length_map, List.length_range]
  rw [sum_map_constN]
  rw [sum_map_constN]
  simp [Nat.mul_assoc]

theorem flatten4_length_of_slices (v : Arr4) (s : Nat)
    (h : ∀ x ∈ v, (flatten3 x).length = s) :
    (flatten4 v).length = v.length * s := by
  induction v with
  | nil => simp [flatten4]
  | cons x xs ih =>
    have hx := h x (List.mem_cons_self x xs)
    have ihh := ih fun y hy => h y (List.mem_cons_of_mem x hy)
    simp only [flatten4, List.map_cons, List.flatten_cons,
      List.length_append] at ihh ⊢
    rw [hx, ihh, List.length_cons, Nat.succ_mul, Nat.add_comm]

theorem flatten2_flip2_length (m : Arr2) :
    (flatten2 (flip2 m)).length = (flatten2 m).length := by
  simp [flatten2, flip2, flip1, List.length_flatten, List.map_reverse,
    List.map_map, Function.comp_def, List.sum_reverse]

theorem flatten3_flip3_length (a : Arr3) :
    (flatten3 (flip3 a)).length = (flatten3 a).length := by
  simp only [flatten3, flip3, List.length_flatten, List.map_reverse,
    List.map_map, Function.comp_def, List.sum_reverse]
  simp [flatten2_flip2_length]

theorem flatten4_flip4_length (v : Arr4) :
    (flatten4 (flip4 v)).length = (flatten4 v).length := by
  simp only [flatten4, flip4, List.length_flatten, List.map_map,
    Function.comp_def]
  simp [flatten3_flip3_length]

theorem flatten4_mapIdx_length :
    ∀ (v : Arr4) (f : Nat → Arr3 → Arr3),
      (∀ i a, (flatten3 (f i a)).length = (flatten3 a).length) →
      (flatten4 (v.mapIdx f)).length = (flatten4 v).length := by
  intro v
  induction v with
  | nil => intro f _; rfl
  | cons x xs ih =>
    intro f h
    rw [List.mapIdx_cons]
    have h2 := ih (fun i a => f (i + 1) a) fun i a => h (i + 1) a
    simp only [flatten4, List.map_cons, List.flatten_cons,
      List.length_append] at h2 ⊢
    rw [h 0 x, h2]

theorem exceptBind_ok {α β : Type} (a : α) (f : α → Except PyErr β) :
    (Except.ok a : Except PyErr α) >>= f = f a := rfl

theorem exceptBind_err {α β : Type} (e : PyErr) (f : α → Except PyErr β) :
    (Except.error e : Except PyErr α) >>= f = Except.error e := rfl

theorem exceptMap_ok {α β : Type} (a : α) (f : α → β) :
    (Except.ok a : Except PyErr α).map f = Except.ok (f a) := rfl

theorem exceptMap_err {α β : Type} (e : PyErr) (f : α → β) :
    (Except.error e : Except PyErr α).map f = Except.error e := rfl

theorem execOp4_length (T : Transforms) (hT : Tpres T) (n : Nat)
    (op : AugKind) (v : Arr4) (g : RngPair) :
    (flatten4 ((execOp4 T n op v g).1)).length = (flatten4 v).length := by
  obtain ⟨hrot, _hn3, hn4, _hd3, hd4⟩ := hT
  cases op with
  | flip => simpa [execOp4] using flatten4_flip4_length v
  | rotate =>
      simp only [execOp4, rotApply4]
      exact flatten4_mapIdx_length v _ fun i a => by
        by_cases hi : i < selCount n <;> simp [hi, hrot]
  | noise => simp [execOp4, hn4]
  | deform => simp [execOp4, hd4]

theorem execOps4_length (T : Transforms) (hT : Tpres T) (n : Nat) :
    ∀ (ops : List AugKind) (v : Arr4) (g : RngPair),
      (flatten4 ((execOps4 T n ops v g).1)).length = (flatten4 v).length := by
  intro ops
  induction ops with
  | nil => intro v g; rfl
  | cons op ops ih =>
      intro v g
      simp only [execOps4]
      rw [ih, execOp4_length T hT n op v g]

theorem selected_slices_length (n : Nat) (raw : Arr4) (s : Nat)
    (h1 : 1 < n) (hlen : raw.length = 5)
    (hsl : ∀ x ∈ raw, (flatten3 x).length = s) :
    ∃ w, selectChannels n raw = NpArr.four w ∧
      (flatten4 w).length = selCount n * s := by
  by_cases h5 : n = 5
  · subst h5
    refine ⟨raw, by simp [selectChannels], ?_⟩
    rw [flatten4_length_of_slices raw s hsl, hlen]
    rfl
  · by_cases h4 : n = 4
    · subst h4
      refine ⟨ndIndexList raw [0, 1, 2, 4], by simp [selectChannels], ?_⟩
      rw [flatten4_length_of_slices _ s ?_]
      · simp [ndIndexList, selCount]
      · intro x hx
        simp only [ndIndexList, List.mem_map] at hx
        obtain ⟨i, hi, hxe⟩ := hx
        have hilt : i < raw.length := by
          rw [hlen]; fin_cases hi <;> decide
        have hmem : raw.getD i [] ∈ raw := by
          rw [List.getD_eq_getElem?_getD, List.getElem?_eq_getElem hilt,
            Option.getD_some]
          exact List.getElem_mem hilt
        rw [← hxe]
        exact hsl _ hmem
    · have hsel : selectChannels n raw = NpArr.four (raw.take 3) := by
        simp [selectChannels, h1, h4, h5]
      refine ⟨raw.take 3, hsel, ?_⟩
      rw [flatten4_length_of_slices _ s fun x hx =>
        hsl x (List.take_subset 3 raw hx)]
      have ht3 : (raw.take 3).length = 3 := by simp [hlen]
      rw [ht3]
      simp [selCount, h4, h5]

theorem npReshape3_fails_of_mul (d : Dims) (flat : List ℚ) (n : Nat)
    (hpos : 0 < dimProd d) (hn : 1 < n)
    (hlen : flat.length = dimProd d * n) :
    npReshape3 d flat = Except.error PyErr.valueError := by
  have hne : ¬ flat.length = dimProd d := by
    rw [hlen]
    intro he
    have h1 : n = 1 := Nat.eq_of_mul_eq_mul_left hpos
      (by rw [Nat.mul_one]; exact he)
    omega
  rw [npReshape3, if_neg hne]

theorem get_pat_array_sectionate (T : Transforms) (hT : Tpres T)
    (fs : String → Except PyErr Arr4) (st : GenState) (pat : String)
    (raw : Arr4)
    (hch : 1 < st.nChannels) (hsec : st.toSectionate = true)
    (hload : fs (volumeFileName st.dataDir st.toAugment pat
      (st.modality.getD 0 (""))) = Except.ok raw)
    (hlen : raw.length = 5)
    (hsl : ∀ x ∈ raw, (flatten3 x).length = dimProd st.dim)
    (hpos : 0 < dimProd st.dim) :
    (selCount st.nChannels ≠ st.nChannels →
      get_pat_array T fs st pat = Except.error PyErr.valueError) ∧
    (selCount st.nChannels = st.nChannels →
      ∃ r g2, get_pat_array T fs st pat = Except.ok (NpArr.four r, g2) ∧
        (flatten4 r).length = dimProd st.dim * st.nChannels) := by
  obtain ⟨w, hsel, hwlen⟩ :=
    selected_slices_length st.nChannels raw (dimProd st.dim) hch hlen hsl
  have hne1 : (st.nChannels == 1) = false := by
    simp only [beq_eq_false_iff_ne]
    omega
  have hexec : (flatten4 ((execOps4 T st.nChannels
      (augOpsApplied pat st.augmentTypes) w st.rng).1)).length =
      selCount st.nChannels * dimProd st.dim := by
    rw [execOps4_length T hT st.nChannels _ w st.rng, hwlen]
  have hbody : get_pat_array T fs st pat =
      (npReshape4 st.dim st.nChannels
        (flatten4 ((execOps4 T st.nChannels
          (augOpsApplied pat st.augmentTypes) w st.rng).1))).map
        fun r => (NpArr.four r, (execOps4 T st.nChannels
          (augOpsApplied pat st.augmentTypes) w st.rng).2) := by
    simp only [get_pat_array, hload, exceptBind_ok, hsel, hsec, hne1,
      flattenP, Bool.false_eq_true, if_false, if_true]
  constructor
  · intro hne
    have hcond : ¬ ((flatten4 ((execOps4 T st.nChannels
        (augOpsApplied pat st.augmentTypes) w st.rng).1)).length =
        dimProd st.dim * st.nChannels) := by
      rw [hexec]
      intro he
      apply hne
      apply Nat.eq_of_mul_eq_mul_right hpos
      rw [he, Nat.mul_comm]
    rw [hbody, npReshape4, if_neg hcond, exceptMap_err]
  · intro heq
    have hcond : (flatten4 ((execOps4 T st.nChannels
        (augOpsApplied pat st.augmentTypes) w st.rng).1)).length =
        dimProd st.dim * st.nChannels := by
      rw [hexec, heq, Nat.mul_comm]
    refine ⟨unflatten4 st.dim.1 st.dim.2.1 st.dim.2.2 st.nChannels
      (flatten4 ((execOps4 T st.nChannels
        (augOpsApplied pat st.augmentTypes) w st.rng).1)),
      (execOps4 T st.nChannels
        (augOpsApplied pat st.augmentTypes) w st.rng).2, ?_, ?_⟩
    · rw [hbody, npReshape4, if_pos hcond, exceptMap_ok]
    · rw [flatten4_unflatten4_length]
      simp [dimProd]

/-- C10: with a single modality, sectionation enabled and channel count
above 1, every item access fails with the shape-mismatch `ValueError`:
`get_pat_array` reshapes to `(*dim, n_channels)` (line 134) — which
succeeds exactly when the selected slice count equals the channel count
— and `__getitem__` then reshapes the same data to `dim` alone
(line 82), whose element count is smaller by the channel factor, so no
tensor is ever returned.  The second conjunct exhibits the claimed
mechanism: whenever the loader's reshape goes through, the entry point's
second reshape is the one that fails. -/
theorem sectionate_multichannel_fails (T : Transforms) (hT : Tpres T)
    (fs : String → Except PyErr Arr4) (st : GenState) (idx : Nat)
    (pat : String) (lab : Int) (m : String) (raw : Arr4)
    (hmod : st.modality = [m])
    (hsec : st.toSectionate = true)
    (hch : 1 < st.nChannels)
    (hidx : st.labels.get? idx = some (pat, lab))
    (hfind : st.labels.find? (fun p => p.1 == pat) = some (pat, lab))
    (hload : fs (volumeFileName st.dataDir st.toAugment pat m) =
      Except.ok raw)
    (hlen : raw.length = 5)
    (hsl : ∀ x ∈ raw, (flatten3 x).length = dimProd st.dim)
    (hpos : 0 < dimProd st.dim) :
    getItem T fs st idx = Except.error PyErr.valueError ∧
    (selCount st.nChannels = st.nChannels →
      ∃ r g2, get_pat_array T fs st pat = Except.ok (NpArr.four r, g2) ∧
        npReshape3 st.dim (flattenP (NpArr.four r)) =
          Except.error PyErr.valueError) := by
  have hload2 : fs (volumeFileName st.dataDir st.toAugment pat
      (st.modality.getD 0 (""))) = Except.ok raw := by
    rw [hmod]
    simpa using hload
  obtain ⟨hcErr, hcOk⟩ := get_pat_array_sectionate T hT fs st pat raw hch
    hsec hload2 hlen hsl hpos
  have hmlen : st.modality.length < 2 := by simp [hmod]
  constructor
  · by_cases hk : selCount st.nChannels = st.nChannels
    · obtain ⟨r, g2, hga, hrlen⟩ := hcOk hk
      have hresh : npReshape3 st.dim (flattenP (NpArr.four r)) =
          Except.error PyErr.valueError := by
        simp only [flattenP]
        exact npReshape3_fails_of_mul st.dim _ st.nChannels hpos hch hrlen
      simp only [getItem, hidx, hfind]
      rw [if_pos hmlen, hga, exceptBind_ok]
      simp only [hsec, if_true, hresh, exceptMap_err, exceptBind_err]
    · have hga := hcErr hk
      simp only [getItem, hidx, hfind]
      rw [if_pos hmlen, hga, exceptBind_err]
  · intro hk
    obtain ⟨r, g2, hga, hrlen⟩ := hcOk hk
    refine ⟨r, g2, hga, ?_⟩
    simp only [flattenP]
    exact npReshape3_fails_of_mul st.dim _ st.nChannels hpos hch hrlen

/-- Witness for C10 at a concrete three-channel sectionated
configuration. -/
theorem sectionate_multichannel_fails_witness :
    getItem Ttriv (fsSingle ("P_1_T1.npy") demoVol) st10 0 =
      Except.error PyErr.valueError :=
  (sectionate_multichannel_fails Ttriv
    ⟨fun _ _ => rfl, fun _ _ _ => rfl, fun _ _ _ => rfl, fun _ => rfl,
      fun _ => rfl⟩
    (fsSingle ("P_1_T1.npy") demoVol) st10 0 ("P_1") 0 ("T1") demoVol
    rfl rfl (by decide) rfl rfl rfl rfl
    (by
      intro x hx
      simp only [demoVol, List.mem_cons, List.not_mem_nil, or_false] at hx
      rcases hx with h | h | h | h | h <;> subst h <;> rfl)
    (by decide)).1
